import Mathlib

/-!
Verification of the DeepGalaxy spaced-repetition scheduler (`src/app.js`).

The scheduling core (`Logic.calculateSM2`, `Logic.getUserStats`,
`Logic.calculateCardStats`, `Logic.getDueCards`, `App.submitReview`) is
embedded shallowly:

* JS numbers carrying formula arithmetic are modelled as `ℚ` (all the
  constants in the source are decimal literals, exact in `ℚ`);
* timestamps (ISO strings / `Date` values) are modelled as `Int`
  milliseconds since the epoch, with `86400000` ms per day (the source
  divides by `864e5`);
* optional record fields (`lastReviewAt`, `nextReviewAt`,
  `totalSuccesses`, and the fields of the object returned by
  `calculateCardStats`) are modelled as `Option`; a JS comparison
  against `undefined` (which is `false` both ways) is modelled by
  `jsLtOpt` / `jsGtOpt`;
* the transcendental library calls `Math.exp`, `Math.log2`,
  `Math.log10` are modelled as abstract function parameters
  `expFn log2Fn log10Fn : ℚ → ℚ` — none of the verified properties
  depend on their values;
* `Math.round` is `jsRound x = ⌊x + 1/2⌋` (JS rounds half toward +∞);
* `Array.prototype.sort` with the comparator
  `(a, b) => b.priorityScore - a.priorityScore` is modelled by
  `List.mergeSort` with the corresponding boolean order: the observable
  guarantee of the JS sort with a consistent comparator is exactly
  "a permutation of the input, sorted by the comparator".
-/

/-- A flashcard's scheduling state (the fields of a `cards` record that
the scheduler reads or writes; content fields are irrelevant here). -/
structure Card where
  n : Nat
  I : ℚ
  EF : ℚ
  lastReviewAt : Option Int
  nextReviewAt : Option Int
  totalSuccesses : Option Nat
  deriving Repr, DecidableEq

/-- A review-log record (`logs` store): the fields the statistics read. -/
structure LogEntry where
  cardId : Nat
  reviewedAt : Int
  q : Int
  deriving Repr, DecidableEq

/-- Result record of `Logic.calculateSM2`. The interval assigned by the
source is always an integer (1, 6, or `Math.round(...)`), so `I : Int`. -/
structure SM2Result where
  n : Nat
  I : Int
  EF : ℚ
  deriving Repr, DecidableEq

/-- Milliseconds per day; the source writes `864e5`. -/
def msPerDay : Int := 86400000

/-- JS `Math.round`: round half toward positive infinity. -/
def jsRound (x : ℚ) : Int := ⌊x + 1/2⌋

/-- `Logic.calculateSM2(card, q)` from `src/app.js` lines 66-80:
lapse (`q < 3`) resets `n` to 0 and `I` to 1; success increments `n`
and sets `I` to 1, 6, or `round(I * EF)`; the ease factor is updated by
`EF + (0.1 - delta*(0.08 + delta*0.02))` with `delta = 5 - q` in both
branches and clamped below at 1.3. -/
def calculateSM2 (card : Card) (q : Int) : SM2Result :=
  let nextN : Nat := if q < 3 then 0 else card.n + 1
  let nextI : Int :=
    if q < 3 then 1
    else if card.n + 1 = 1 then 1
    else if card.n + 1 = 2 then 6
    else jsRound (card.I * card.EF)
  let delta : ℚ := 5 - q
  let ef0 : ℚ := card.EF + (1/10 - delta * (2/25 + delta * (1/50)))
  let nextEF : ℚ := if ef0 < 13/10 then 13/10 else ef0
  ⟨nextN, nextI, nextEF⟩

/-- The log entries whose `reviewedAt` lies within the trailing 30 days
of `now` (the `IDBKeyRange.lowerBound(cutoff)` query of
`Logic.getUserStats`, `src/app.js` lines 82-97). -/
def recentLogs (logs : List LogEntry) (now : Int) : List LogEntry :=
  logs.filter (fun l => now - 30 * msPerDay ≤ l.reviewedAt)

/-- `Logic.getUserStats` (`src/app.js` lines 82-97): the trailing-30-day
forgetting rate and the number of entries in the window. Empty window
gives `(0, 0)`. -/
def getUserStats (logs : List LogEntry) (now : Int) : ℚ × Nat :=
  let res := recentLogs logs now
  if res.length = 0 then (0, 0)
  else (((res.filter (fun l => l.q < 3)).length : ℚ) / (res.length : ℚ), res.length)

/-- The object returned by `Logic.calculateCardStats`. The `n = 0`
branch of the source returns `{retention, forgetRisk, priorityScore}`;
the other branch returns
`{retentionProbability, forgetRisk, retentionScore, priorityScore}`.
Fields present in only one branch are `Option`; `forgetRisk` and
`priorityScore` are present in both. -/
structure CardStats where
  retention : Option ℚ
  retentionProbability : Option ℚ
  forgetRisk : ℚ
  retentionScore : Option ℚ
  priorityScore : ℚ
  deriving Repr, DecidableEq

/-- The successes count used by `calculateCardStats`:
`card.totalSuccesses || card.n` — JS `||` falls back to `n` when
`totalSuccesses` is absent OR zero (0 is falsy). -/
def successesOf (card : Card) : Nat :=
  match card.totalSuccesses with
  | some ts => if ts = 0 then card.n else ts
  | none => card.n

/-- `Logic.calculateCardStats(card, userForgetRate)` (`src/app.js`
lines 99-112). `expFn`, `log2Fn`, `log10Fn` stand for `Math.exp`,
`Math.log2`, `Math.log10`. The `userForgetRate` argument is accepted
and ignored, as in the source. -/
def calculateCardStats (expFn log2Fn log10Fn : ℚ → ℚ) (now : Int)
    (card : Card) (userForgetRate : ℚ) : CardStats :=
  if card.n = 0 then
    { retention := some 0, retentionProbability := none, forgetRisk := 1,
      retentionScore := none, priorityScore := 100 }
  else
    let lastReview : Int := card.lastReviewAt.getD now
    let t : ℚ := ((now - lastReview : Int) : ℚ) / (msPerDay : ℚ)
    let S : ℚ := max (card.I * card.EF) (1/10)
    let ret : ℚ := expFn (-t / S)
    let risk : ℚ := 1 - ret
    let rScore : ℚ := min 100 (log2Fn (1 + (successesOf card : ℚ)) * card.EF * 10)
    let overdue : ℚ :=
      match card.nextReviewAt with
      | some d => if d < now then ((now - d : Int) : ℚ) / (msPerDay : ℚ) else 0
      | none => 0
    let ps : ℚ := risk * (1/2) + (1 - rScore / 100) * (3/10)
      + (1 / card.EF) * (1/10) + log10Fn (1 + overdue) * (1/10)
    { retention := none, retentionProbability := some ret, forgetRisk := risk,
      retentionScore := some rScore, priorityScore := ps }

/-- A card together with its computed statistics: the spread
`{ ...c, ...calculateCardStats(c, forgetRate) }` in `getDueCards`. -/
structure CardWithStats where
  card : Card
  stats : CardStats
  deriving Repr, DecidableEq

/-- The due-set inclusion predicate of `Logic.getDueCards`
(`src/app.js` line 119): `!c.nextReviewAt || nextReviewAt <= now ||
priorityScore >= 0.6`. -/
def dueFilter (now : Int) (c : CardWithStats) : Bool :=
  match c.card.nextReviewAt with
  | none => true
  | some d => decide (d ≤ now) || decide ((6 : ℚ)/10 ≤ c.stats.priorityScore)

/-- The boolean order used to model
`due.sort((a, b) => b.priorityScore - a.priorityScore)`. -/
def byPriorityDesc (a b : CardWithStats) : Bool :=
  decide (b.stats.priorityScore ≤ a.stats.priorityScore)

/-- `Logic.getDueCards` (`src/app.js` lines 114-122): annotate every
card with its stats, keep the due ones, sort descending by
`priorityScore`. -/
def getDueCards (expFn log2Fn log10Fn : ℚ → ℚ) (logs : List LogEntry)
    (cards : List Card) (now : Int) : List CardWithStats :=
  let forgetRate := (getUserStats logs now).1
  let withP := cards.map (fun c =>
    CardWithStats.mk c (calculateCardStats expFn log2Fn log10Fn now c forgetRate))
  let due := withP.filter (dueFilter now)
  due.mergeSort byPriorityDesc

/-- The UI grade map of `App.submitReview` (`src/app.js` line 647):
`{1: 1, 2: 3, 3: 4, 4: 5}`; other keys are absent. -/
def qMap (uiGrade : Nat) : Option Int :=
  match uiGrade with
  | 1 => some 1
  | 2 => some 3
  | 3 => some 4
  | 4 => some 5
  | _ => none

/-- JS `<` where the left operand may be `undefined`
(`undefined < x` is `false`). -/
def jsLtOpt (o : Option ℚ) (x : ℚ) : Bool :=
  match o with
  | some v => decide (v < x)
  | none => false

/-- JS `>` where the left operand may be `undefined`
(`undefined > x` is `false`). -/
def jsGtOpt (o : Option ℚ) (x : ℚ) : Bool :=
  match o with
  | some v => decide (x < v)
  | none => false

/-- The ease multiplier of `App.submitReview` (`src/app.js` lines
653-655): 0.9 above forgetting rate 0.35, 1.1 below 0.15, else 1. -/
def easeMultiplier (forgetRate : ℚ) : ℚ :=
  if 7/20 < forgetRate then 9/10
  else if forgetRate < 3/20 then 11/10
  else 1

/-- The retention multiplier of `App.submitReview` (`src/app.js` lines
658-660): 0.8 when `retentionScore < 40`, 1.2 when `> 80`, else 1;
an absent `retentionScore` fails both comparisons. -/
def retentionMultiplier (rs : Option ℚ) : ℚ :=
  if jsLtOpt rs 40 then 4/5
  else if jsGtOpt rs 80 then 6/5
  else 1

/-- `App.submitReview` (`src/app.js` lines 646-676), the persisted card
update: SM-2 step, ease multiplier from the user's forgetting rate,
retention multiplier from the card's retention score, final interval
rule, and the field writes (including `nextReviewAt = now + I'' days`
and the `totalSuccesses` bump on success). -/
def submitReview (expFn log2Fn log10Fn : ℚ → ℚ) (logs : List LogEntry)
    (card : Card) (q : Int) (now : Int) : Card :=
  let forgetRate := (getUserStats logs now).1
  let eMult := easeMultiplier forgetRate
  let cs := calculateCardStats expFn log2Fn log10Fn now card forgetRate
  let rMult := retentionMultiplier cs.retentionScore
  let sm2 := calculateSM2 card q
  let efNew : ℚ := max (sm2.EF * eMult) (13/10)
  let iNew : Int :=
    if 2 < sm2.n ∧ 3 ≤ q then jsRound (card.I * efNew * rMult)
    else if q < 3 then 1
    else sm2.I
  { n := sm2.n
    I := (iNew : ℚ)
    EF := efNew
    lastReviewAt := some now
    nextReviewAt := some (now + iNew * msPerDay)
    totalSuccesses :=
      if 3 ≤ q then some (card.totalSuccesses.getD 0 + 1)
      else card.totalSuccesses }

/-! ### Helper lemmas -/

/-- The clamp `if x < c then c else x` is `max x c`. -/
theorem ite_lt_clamp (x c : ℚ) : (if x < c then c else x) = max x c := by
  rw [max_def]
  split_ifs <;> first | rfl | linarith

/-! ### C1 -/

/-- C1: for every card state and every quality `q < 3`, `calculateSM2`
returns `n' = 0` and `I' = 1`, and the ease factor is not reset but
formula-updated: `EF + (0.1 - delta*(0.08 + delta*0.02))` with
`delta = 5 - q`, clamped to at least 1.3. -/
theorem calculateSM2_lapse (card : Card) (q : Int) (h : q < 3) :
    calculateSM2 card q =
      { n := 0, I := 1,
        EF := max (card.EF + (1/10 - (5 - (q : ℚ)) * (2/25 + (5 - (q : ℚ)) * (1/50))))
          (13/10) } := by
  simp only [calculateSM2, if_pos h, ite_lt_clamp]

/-- Witness for C1 at card `(n, I, EF) = (5, 10, 2)` and `q = 1`. -/
theorem calculateSM2_lapse_witness :
    calculateSM2 ⟨5, 10, 2, none, none, none⟩ 1 =
      { n := 0, I := 1,
        EF := max ((2 : ℚ) + (1/10 - (5 - ((1 : Int) : ℚ)) * (2/25 + (5 - ((1 : Int) : ℚ)) * (1/50))))
          (13/10) } :=
  calculateSM2_lapse ⟨5, 10, 2, none, none, none⟩ 1 (by norm_num)

/-! ### C2 -/

/-- C2: for every card state and every quality `q ≥ 3`, `calculateSM2`
returns `n' = n + 1`, and the interval is `1` when `n' = 1`, `6` when
`n' = 2`, and `round(I * EF)` when `n' ≥ 3`. -/
theorem calculateSM2_success (card : Card) (q : Int) (h : 3 ≤ q) :
    (calculateSM2 card q).n = card.n + 1 ∧
    ((calculateSM2 card q).n = 1 → (calculateSM2 card q).I = 1) ∧
    ((calculateSM2 card q).n = 2 → (calculateSM2 card q).I = 6) ∧
    (3 ≤ (calculateSM2 card q).n → (calculateSM2 card q).I = jsRound (card.I * card.EF)) := by
  have hq : ¬ q < 3 := not_lt.mpr h
  have hn' : (calculateSM2 card q).n = card.n + 1 := by simp [calculateSM2, hq]
  refine ⟨hn', ?_, ?_, ?_⟩ <;> intro hn
  · have h0 : card.n = 0 := by rw [hn'] at hn; omega
    simp [calculateSM2, hq, h0]
  · have h1 : card.n = 1 := by rw [hn'] at hn; omega
    simp [calculateSM2, hq, h1]
  · have h2 : ¬ (card.n + 1 = 1) := by rw [hn'] at hn; omega
    have h3 : ¬ (card.n + 1 = 2) := by rw [hn'] at hn; omega
    simp [calculateSM2, hq, h2, h3]

/-- Witness for C2 at card `(n, I, EF) = (2, 6, 5/2)` and `q = 5`. -/
theorem calculateSM2_success_witness :
    (calculateSM2 ⟨2, 6, 5/2, none, none, none⟩ 5).n = 2 + 1 ∧
    ((calculateSM2 ⟨2, 6, 5/2, none, none, none⟩ 5).n = 1 →
      (calculateSM2 ⟨2, 6, 5/2, none, none, none⟩ 5).I = 1) ∧
    ((calculateSM2 ⟨2, 6, 5/2, none, none, none⟩ 5).n = 2 →
      (calculateSM2 ⟨2, 6, 5/2, none, none, none⟩ 5).I = 6) ∧
    (3 ≤ (calculateSM2 ⟨2, 6, 5/2, none, none, none⟩ 5).n →
      (calculateSM2 ⟨2, 6, 5/2, none, none, none⟩ 5).I = jsRound ((6 : ℚ) * (5/2))) :=
  calculateSM2_success ⟨2, 6, 5/2, none, none, none⟩ 5 (by norm_num)

/-! ### C3 -/

/-- C3: for every input card with `EF ≥ 1.3` and every quality
`q ∈ {1,...,5}`, both the ease factor returned by `calculateSM2` and
the final ease factor written by `submitReview` (after the ease
multiplier) are at least 1.3. -/
theorem easeFactor_floor (expFn log2Fn log10Fn : ℚ → ℚ) (logs : List LogEntry)
    (card : Card) (q : Int) (now : Int)
    (hEF : 13/10 ≤ card.EF) (hq1 : 1 ≤ q) (hq5 : q ≤ 5) :
    13/10 ≤ (calculateSM2 card q).EF ∧
    13/10 ≤ (submitReview expFn log2Fn log10Fn logs card q now).EF := by
  constructor
  · simp only [calculateSM2]
    split_ifs with h
    · linarith
    · linarith [not_lt.mp h]
  · have h : (submitReview expFn log2Fn log10Fn logs card q now).EF =
        max ((calculateSM2 card q).EF *
          easeMultiplier (getUserStats logs now).1) (13/10) := rfl
    rw [h]
    exact le_max_right _ _

/-- Witness for C3 at card `(n, I, EF) = (0, 0, 5/2)`, `q = 1`. -/
theorem easeFactor_floor_witness :
    (13 : ℚ)/10 ≤ (calculateSM2 ⟨0, 0, 5/2, none, none, none⟩ 1).EF ∧
    (13 : ℚ)/10 ≤ (submitReview (fun _ => 0) (fun _ => 0) (fun _ => 0) []
      ⟨0, 0, 5/2, none, none, none⟩ 1 0).EF :=
  easeFactor_floor (fun _ => 0) (fun _ => 0) (fun _ => 0) []
    ⟨0, 0, 5/2, none, none, none⟩ 1 0 (by norm_num) (by norm_num) (by norm_num)

/-! ### C6 -/

/-- C6: for every card with `n = 0`, whatever its other fields,
`calculateCardStats` returns the fixed sentinel: `retention = 0`,
`forgetRisk = 1.0`, `priorityScore = 100` (and nothing else). -/
theorem cardStats_new_sentinel (expFn log2Fn log10Fn : ℚ → ℚ) (now : Int)
    (card : Card) (userForgetRate : ℚ) (h : card.n = 0) :
    calculateCardStats expFn log2Fn log10Fn now card userForgetRate =
      { retention := some 0, retentionProbability := none, forgetRisk := 1,
        retentionScore := none, priorityScore := 100 } := by
  simp [calculateCardStats, h]

/-- Witness for C6 at a card with `n = 0` and arbitrary-looking other
fields. -/
theorem cardStats_new_sentinel_witness :
    calculateCardStats (fun x => x + 1) (fun x => x * 2) (fun x => x - 3) 987654
      ⟨0, 99, -5, some 123, some 456, some 7⟩ (1/2) =
      { retention := some 0, retentionProbability := none, forgetRisk := 1,
        retentionScore := none, priorityScore := 100 } :=
  cardStats_new_sentinel (fun x => x + 1) (fun x => x * 2) (fun x => x - 3) 987654
    ⟨0, 99, -5, some 123, some 456, some 7⟩ (1/2) rfl

/-! ### C5 (corrected) -/

/-- A freshly created card: `{n: 0, I: 0, EF: 2.5}`, no timestamps. -/
def freshCard : Card := ⟨0, 0, 5/2, none, none, none⟩

/-- Counterexample to C5 as stated: reviewing a fresh card with UI
grade 3 (`q = 4`) leaves the ease factor at 2.5 — it is NOT 2.6. For
`q = 4` the ease delta is `0.1 - 1*(0.08 + 1*0.02) = 0`. -/
theorem freshCard_grade3_EF_not_26 :
    (calculateSM2 freshCard 4).EF = 5/2 ∧ ((5 : ℚ)/2 ≠ 13/5) := by
  constructor
  · show (if (5:ℚ)/2 + (1/10 - (5 - (4:ℚ)) * (2/25 + (5 - (4:ℚ)) * (1/50))) < 13/10
      then (13:ℚ)/10
      else (5:ℚ)/2 + (1/10 - (5 - (4:ℚ)) * (2/25 + (5 - (4:ℚ)) * (1/50)))) = 5/2
    norm_num
  · norm_num

/-- C5 amended: for a fresh card `{n:0, I:0, EF:2.5}` reviewed with UI
grade 3 (mapped to `q = 4`), `calculateSM2` yields `n' = 1`, `I' = 1`
and `EF' = 2.5` (unchanged: the `q = 4` ease delta is zero), the
finalizer interval stays 1 (first-repetition path, whatever the log
history), and `nextReviewAt` is set to `now + 1` day. -/
theorem freshCard_grade3_review (expFn log2Fn log10Fn : ℚ → ℚ)
    (logs : List LogEntry) (now : Int) :
    qMap 3 = some 4 ∧
    calculateSM2 freshCard 4 = { n := 1, I := 1, EF := 5/2 } ∧
    (submitReview expFn log2Fn log10Fn logs freshCard 4 now).n = 1 ∧
    (submitReview expFn log2Fn log10Fn logs freshCard 4 now).I = 1 ∧
    (submitReview expFn log2Fn log10Fn logs freshCard 4 now).nextReviewAt =
      some (now + 1 * msPerDay) := by
  have hsm : calculateSM2 freshCard 4 = { n := 1, I := 1, EF := 5/2 } := by
    simp only [calculateSM2, freshCard]
    norm_num
  refine ⟨rfl, hsm, ?_, ?_, ?_⟩ <;>
    simp only [submitReview, hsm] <;> norm_num

/-! ### C8 -/

/-- C8: the forgetting rate is exactly 0 when no log entry falls within
the trailing 30 days of `now` (a defined default, not an error), and
otherwise it is `count(q < 3) / count(all entries in the window)`, a
value in `[0, 1]`. -/
theorem getUserStats_forgetRate (logs : List LogEntry) (now : Int) :
    (recentLogs logs now = [] → (getUserStats logs now).1 = 0) ∧
    (recentLogs logs now ≠ [] →
      (getUserStats logs now).1 =
        (((recentLogs logs now).filter (fun l => l.q < 3)).length : ℚ) /
          ((recentLogs logs now).length : ℚ) ∧
      0 ≤ (getUserStats logs now).1 ∧ (getUserStats logs now).1 ≤ 1) := by
  constructor
  · intro h
    simp [getUserStats, h]
  · intro h
    have hlen : (recentLogs logs now).length ≠ 0 := by
      simpa [List.length_eq_zero] using h
    have hform : (getUserStats logs now).1 =
        (((recentLogs logs now).filter (fun l => l.q < 3)).length : ℚ) /
          ((recentLogs logs now).length : ℚ) := by
      simp [getUserStats, hlen]
    refine ⟨hform, ?_, ?_⟩
    · rw [hform]
      positivity
    · rw [hform]
      have hpos : (0 : ℚ) < ((recentLogs logs now).length : ℚ) := by
        exact_mod_cast Nat.pos_of_ne_zero hlen
      rw [div_le_one hpos]
      exact_mod_cast List.length_filter_le _ _

/-- Witness for C8: the empty log set gives forgetting rate 0. -/
theorem getUserStats_forgetRate_witness : (getUserStats [] 0).1 = 0 :=
  (getUserStats_forgetRate [] 0).1 rfl

/-! ### C10 -/

/-- C10: for every card with `n = 0`, the `n = 0` branch of
`calculateCardStats` returns no `retentionScore` field, so in
`submitReview` neither the `retentionScore < 40` branch (0.8) nor the
`retentionScore > 80` branch (1.2) fires — the comparisons against the
absent field are both false — and the retention multiplier is the
neutral 1.0. -/
theorem newCard_neutral_retentionMultiplier (expFn log2Fn log10Fn : ℚ → ℚ)
    (now : Int) (card : Card) (userForgetRate : ℚ) (h : card.n = 0) :
    (calculateCardStats expFn log2Fn log10Fn now card userForgetRate).retentionScore = none ∧
    jsLtOpt (calculateCardStats expFn log2Fn log10Fn now card userForgetRate).retentionScore 40
      = false ∧
    jsGtOpt (calculateCardStats expFn log2Fn log10Fn now card userForgetRate).retentionScore 80
      = false ∧
    retentionMultiplier
      (calculateCardStats expFn log2Fn log10Fn now card userForgetRate).retentionScore = 1 := by
  have hrs : (calculateCardStats expFn log2Fn log10Fn now card userForgetRate).retentionScore
      = none := by
    simp [calculateCardStats, h]
  exact ⟨hrs, by simp [hrs, jsLtOpt], by simp [hrs, jsGtOpt],
    by simp [hrs, retentionMultiplier, jsLtOpt, jsGtOpt]⟩

/-- Witness for C10 at a concrete `n = 0` card. -/
theorem newCard_neutral_retentionMultiplier_witness :
    (calculateCardStats (fun x => x) (fun x => x) (fun x => x) 777
      ⟨0, 3, 2, some 1, some 5, some 4⟩ (1/4)).retentionScore = none ∧
    jsLtOpt ((calculateCardStats (fun x => x) (fun x => x) (fun x => x) 777
      ⟨0, 3, 2, some 1, some 5, some 4⟩ (1/4)).retentionScore) 40 = false ∧
    jsGtOpt ((calculateCardStats (fun x => x) (fun x => x) (fun x => x) 777
      ⟨0, 3, 2, some 1, some 5, some 4⟩ (1/4)).retentionScore) 80 = false ∧
    retentionMultiplier ((calculateCardStats (fun x => x) (fun x => x) (fun x => x) 777
      ⟨0, 3, 2, some 1, some 5, some 4⟩ (1/4)).retentionScore) = 1 :=
  newCard_neutral_retentionMultiplier (fun x => x) (fun x => x) (fun x => x) 777
    ⟨0, 3, 2, some 1, some 5, some 4⟩ (1/4) rfl

/-! ### C9 (corrected) -/

/-- Counterexample to C9 as stated. First, a card with `n = 0` gets the
three-field sentinel: no `retentionScore` and no `retentionProbability`
field at all. Second, on a card carrying `totalSuccesses = 0` with
`n = 2`, the code's `totalSuccesses || n` falls back to `n` (0 is
falsy): with `log2Fn` the identity the code yields
`retentionScore = min(100, (1+2)*2.5*10) = 75`, while the claim's
"successes is totalSuccesses" reading gives
`min(100, (1+0)*2.5*10) = 25 ≠ 75`. -/
theorem cardStats_fields_counterexample :
    (calculateCardStats (fun x => x) (fun x => x) (fun x => x) 0
      ⟨0, 6, 5/2, none, none, some 9⟩ 0).retentionScore = none ∧
    (calculateCardStats (fun x => x) (fun x => x) (fun x => x) 0
      ⟨0, 6, 5/2, none, none, some 9⟩ 0).retentionProbability = none ∧
    (calculateCardStats (fun x => x) (fun x => x) (fun x => x) 0
      ⟨2, 6, 5/2, none, none, some 0⟩ 0).retentionScore = some 75 ∧
    min 100 ((fun x : ℚ => x) (1 + ((0 : Nat) : ℚ)) * (5/2) * 10) = (25 : ℚ) ∧
    (75 : ℚ) ≠ 25 := by
  refine ⟨by simp [calculateCardStats], by simp [calculateCardStats], ?_, by norm_num, by norm_num⟩
  simp only [calculateCardStats, successesOf]
  norm_num

/-- C9 amended: for every card with `n ≠ 0`, `calculateCardStats`
returns the four-field record — `retentionProbability`, `forgetRisk`,
`retentionScore`, `priorityScore` present, the sentinel-only
`retention` field absent — with
`retentionScore = min(100, log2(1 + successes) * EF * 10)` where
`successes` is `totalSuccesses` when present and nonzero and otherwise
`n` (the JS `totalSuccesses || n` fallback); cards with `n = 0` get the
three-field sentinel of C6 instead. -/
theorem cardStats_fields (expFn log2Fn log10Fn : ℚ → ℚ) (now : Int)
    (card : Card) (userForgetRate : ℚ) (h : card.n ≠ 0) :
    (calculateCardStats expFn log2Fn log10Fn now card userForgetRate).retention = none ∧
    ((calculateCardStats expFn log2Fn log10Fn now card userForgetRate).retentionProbability).isSome
      = true ∧
    (calculateCardStats expFn log2Fn log10Fn now card userForgetRate).retentionScore =
      some (min 100 (log2Fn (1 + (successesOf card : ℚ)) * card.EF * 10)) := by
  refine ⟨?_, ?_, ?_⟩ <;> simp [calculateCardStats, h]

/-- Witness for C9 (amended) at a card with `n = 1` and absent
`totalSuccesses`. -/
theorem cardStats_fields_witness :
    (calculateCardStats (fun x => x) (fun x => x) (fun x => x) 0
      ⟨1, 1, 2, none, none, none⟩ 0).retention = none ∧
    ((calculateCardStats (fun x => x) (fun x => x) (fun x => x) 0
      ⟨1, 1, 2, none, none, none⟩ 0).retentionProbability).isSome = true ∧
    (calculateCardStats (fun x => x) (fun x => x) (fun x => x) 0
      ⟨1, 1, 2, none, none, none⟩ 0).retentionScore =
      some (min 100 ((fun x : ℚ => x)
        (1 + ((successesOf ⟨1, 1, 2, none, none, none⟩ : Nat) : ℚ)) * (2 : ℚ) * 10)) :=
  cardStats_fields (fun x => x) (fun x => x) (fun x => x) 0
    ⟨1, 1, 2, none, none, none⟩ 0 (by norm_num)

/-! ### C4 -/

/-- The card of the C4 scenario: `{n: 2, I: 6, EF: 2.5}`, with nine
recorded successes (so that a retention score above 80 is reachable). -/
def scenarioCard : Card := ⟨2, 6, 5/2, none, none, some 9⟩

/-- Evaluation rule for `jsRound` at a known value. -/
theorem jsRound_eq {x : ℚ} {z : ℤ} (h1 : (z : ℚ) ≤ x + 1/2) (h2 : x + 1/2 < z + 1) :
    jsRound x = z := by
  rw [jsRound, Int.floor_eq_iff]
  exact ⟨h1, h2⟩

/-- C4: `submitReview` picks the persisted interval by exactly the
rule: if the SM-2 result has `n' > 2` and `q ≥ 3`, the interval is
`round(card.I * EF'' * retentionMultiplier)` with
`EF'' = max(EF'_sm2 * easeMultiplier, 1.3)`; else 1 when `q < 3`; else
the unmodified SM-2 interval. And in the scenario — card
`{n:2, I:6, EF:2.5}`, `q = 5`, forgetting rate 0.4 (ease multiplier
0.9), retention score 85 (retention multiplier 1.2) — the final ease
factor is 2.34 and the final interval is 17. -/
theorem submitReview_interval_rule (expFn log2Fn log10Fn : ℚ → ℚ)
    (logs : List LogEntry) (now : Int) :
    (∀ (card : Card) (q : Int),
      (submitReview expFn log2Fn log10Fn logs card q now).I =
        ((if 2 < (calculateSM2 card q).n ∧ 3 ≤ q
          then jsRound (card.I *
            max ((calculateSM2 card q).EF * easeMultiplier (getUserStats logs now).1) (13/10) *
            retentionMultiplier
              (calculateCardStats expFn log2Fn log10Fn now card
                (getUserStats logs now).1).retentionScore)
          else if q < 3 then 1
          else (calculateSM2 card q).I : Int) : ℚ)) ∧
    ((getUserStats logs now).1 = 2/5 →
      (calculateCardStats expFn log2Fn log10Fn now scenarioCard (2/5)).retentionScore = some 85 →
      (submitReview expFn log2Fn log10Fn logs scenarioCard 5 now).EF = 117/50 ∧
      (submitReview expFn log2Fn log10Fn logs scenarioCard 5 now).I = 17) := by
  constructor
  · intro card q
    rfl
  · intro h1 h2
    have hround : jsRound (15 : ℚ) = 15 := jsRound_eq (by norm_num) (by norm_num)
    have hsm : calculateSM2 scenarioCard 5 = { n := 3, I := 15, EF := 13/5 } := by
      simp only [calculateSM2, scenarioCard]
      norm_num [hround]
    have hEFr : (submitReview expFn log2Fn log10Fn logs scenarioCard 5 now).EF =
        max ((calculateSM2 scenarioCard 5).EF * easeMultiplier (getUserStats logs now).1)
          (13/10) := rfl
    have hIr : (submitReview expFn log2Fn log10Fn logs scenarioCard 5 now).I =
        ((if 2 < (calculateSM2 scenarioCard 5).n ∧ 3 ≤ (5 : Int)
          then jsRound (scenarioCard.I *
            max ((calculateSM2 scenarioCard 5).EF * easeMultiplier (getUserStats logs now).1)
              (13/10) *
            retentionMultiplier
              (calculateCardStats expFn log2Fn log10Fn now scenarioCard
                (getUserStats logs now).1).retentionScore)
          else if (5 : Int) < 3 then 1
          else (calculateSM2 scenarioCard 5).I : Int) : ℚ) := rfl
    have hem : easeMultiplier (2/5) = 9/10 := by norm_num [easeMultiplier]
    have hef : max ((13 : ℚ)/5 * easeMultiplier (2/5)) (13/10) = 117/50 := by
      rw [hem, show (13 : ℚ)/5 * (9/10) = 117/50 by norm_num]
      exact max_eq_left (by norm_num)
    have hrm : retentionMultiplier (some 85) = 6/5 := by
      norm_num [retentionMultiplier, jsLtOpt, jsGtOpt]
    constructor
    · rw [hEFr, hsm, h1]
      exact hef
    · rw [hIr, h1, h2, hsm, hrm]
      simp only [hef]
      rw [show jsRound (scenarioCard.I * (117/50) * (6/5)) = 17 from
        jsRound_eq (by norm_num [scenarioCard]) (by norm_num [scenarioCard])]
      norm_num

/-- Witness for C4: the scenario with an explicit 30-day log history of
five reviews (two lapses, three successes, forgetting rate 2/5) and a
rational stand-in for `Math.log2` giving retention score 85. -/
theorem submitReview_interval_rule_witness :
    (submitReview (fun _ => (17 : ℚ)/5) (fun _ => (17 : ℚ)/5) (fun _ => (17 : ℚ)/5)
      [⟨1, 0, 1⟩, ⟨1, 0, 1⟩, ⟨1, 0, 5⟩, ⟨1, 0, 5⟩, ⟨1, 0, 5⟩]
      scenarioCard 5 (30 * msPerDay)).EF = 117/50 ∧
    (submitReview (fun _ => (17 : ℚ)/5) (fun _ => (17 : ℚ)/5) (fun _ => (17 : ℚ)/5)
      [⟨1, 0, 1⟩, ⟨1, 0, 1⟩, ⟨1, 0, 5⟩, ⟨1, 0, 5⟩, ⟨1, 0, 5⟩]
      scenarioCard 5 (30 * msPerDay)).I = 17 :=
  (submitReview_interval_rule (fun _ => (17 : ℚ)/5) (fun _ => (17 : ℚ)/5) (fun _ => (17 : ℚ)/5)
    [⟨1, 0, 1⟩, ⟨1, 0, 1⟩, ⟨1, 0, 5⟩, ⟨1, 0, 5⟩, ⟨1, 0, 5⟩] (30 * msPerDay)).2
    (by norm_num [getUserStats, recentLogs, msPerDay, List.filter])
    (by norm_num [calculateCardStats, scenarioCard, successesOf])

/-! ### C7 -/

/-- `byPriorityDesc` is transitive. -/
theorem byPriorityDesc_trans (a b c : CardWithStats)
    (h1 : byPriorityDesc a b) (h2 : byPriorityDesc b c) : byPriorityDesc a c := by
  simp only [byPriorityDesc, decide_eq_true_eq] at h1 h2 ⊢
  exact le_trans h2 h1

/-- `byPriorityDesc` is total. -/
theorem byPriorityDesc_total (a b : CardWithStats) :
    byPriorityDesc a b || byPriorityDesc b a := by
  simp only [byPriorityDesc, Bool.or_eq_true, decide_eq_true_eq]
  exact le_total _ _

/-- C7: every card in the sequence returned by `getDueCards` satisfies
the inclusion predicate (`nextReviewAt` absent, or `nextReviewAt ≤ now`,
or `priorityScore ≥ 0.6`); the sequence is sorted non-increasing by
`priorityScore`; and a card with `nextReviewAt` absent is always
included — its stats-annotated copy is a member of the output. -/
theorem getDueCards_spec (expFn log2Fn log10Fn : ℚ → ℚ) (logs : List LogEntry)
    (cards : List Card) (now : Int) :
    (∀ c ∈ getDueCards expFn log2Fn log10Fn logs cards now, dueFilter now c = true) ∧
    List.Sorted (fun a b : CardWithStats => b.stats.priorityScore ≤ a.stats.priorityScore)
      (getDueCards expFn log2Fn log10Fn logs cards now) ∧
    (∀ c ∈ cards, c.nextReviewAt = none →
      CardWithStats.mk c
          (calculateCardStats expFn log2Fn log10Fn now c (getUserStats logs now).1) ∈
        getDueCards expFn log2Fn log10Fn logs cards now) := by
  refine ⟨?_, ?_, ?_⟩
  · intro c hc
    simp only [getDueCards, List.mem_mergeSort, List.mem_filter] at hc
    exact hc.2
  · have hp := List.sorted_mergeSort byPriorityDesc_trans byPriorityDesc_total
      ((cards.map (fun c => CardWithStats.mk c
          (calculateCardStats expFn log2Fn log10Fn now c (getUserStats logs now).1))).filter
        (dueFilter now))
    show List.Pairwise _ _
    simp only [getDueCards]
    exact List.Pairwise.imp (fun h => of_decide_eq_true h) hp
  · intro c hc hnone
    simp only [getDueCards, List.mem_mergeSort, List.mem_filter]
    refine ⟨List.mem_map_of_mem _ hc, ?_⟩
    simp [dueFilter, hnone]

/-- Witness for C7: a never-reviewed card (absent `nextReviewAt`) is in
the due queue. -/
theorem getDueCards_spec_witness :
    CardWithStats.mk freshCard
        (calculateCardStats (fun _ => 0) (fun _ => 0) (fun _ => 0) 0 freshCard
          (getUserStats [] 0).1) ∈
      getDueCards (fun _ => 0) (fun _ => 0) (fun _ => 0) [] [freshCard] 0 :=
  (getDueCards_spec (fun _ => 0) (fun _ => 0) (fun _ => 0) [] [freshCard] 0).2.2 freshCard
    (List.mem_singleton_self _) rfl
